import Mathlib

/-
  Verification development for the study-progress dashboard
  (src/Dashboard/dashboard.py).

  Shallow embedding conventions:
  - Python ints are modelled as Int (Nat where the value is a count).
  - Python floats (grades, max_points, max_gpa) are modelled as Rat;
    Python's round(x, 2) is modelled as decimal rounding with ties to even.
  - Python dicts/JSON payloads are modelled by the JValue inductive below;
    json.dumps/json.loads and the file system are out of scope, so
    PersistenceService.save produces a JValue and load consumes one.
  - Exceptions (KeyError / ValueError) are modelled with Except String.
-/

namespace Dashboard

/-- ModuleStatus enum from dashboard.py (values "planned", "enrolled",
"completed", "recognized"). -/
inductive ModuleStatus where
  | planned
  | enrolled
  | completed
  | recognized
deriving DecidableEq, Repr

/-- Assessment dataclass: name, max_points, passed (default False),
grade (optional, default None). -/
structure Assessment where
  name : String
  max_points : ℚ
  passed : Bool
  grade : Option ℚ
deriving DecidableEq, Repr

/-- Assessment.record_result: sets passed; grade becomes the given grade
when passed and the grade is present, otherwise None
(source: grade if passed and grade is not None else (None if passed else None)). -/
def Assessment.record_result (a : Assessment) (p : Bool) (g : Option ℚ) : Assessment :=
  { a with passed := p, grade := if p && g.isSome then g else none }

/-- Module dataclass: optional id, code, title, ects, assessment, status. -/
structure Module where
  id : Option ℤ
  code : String
  title : String
  ects : ℤ
  assessment : Assessment
  status : ModuleStatus
deriving DecidableEq, Repr

/-- Module.enroll: status becomes Enrolled, assessment untouched. -/
def Module.enroll (m : Module) : Module :=
  { m with status := ModuleStatus.enrolled }

/-- Module.complete(grade): record_result(True, grade), status Completed. -/
def Module.complete (m : Module) (grade : ℚ) : Module :=
  { m with assessment := m.assessment.record_result true (some grade),
           status := ModuleStatus.completed }

/-- Module.recognize: record_result(True, None), status Recognized. -/
def Module.recognize (m : Module) : Module :=
  { m with assessment := m.assessment.record_result true none,
           status := ModuleStatus.recognized }

/-- Module.reset: record_result(False, None), status Planned. -/
def Module.reset (m : Module) : Module :=
  { m with assessment := m.assessment.record_result false none,
           status := ModuleStatus.planned }

/-- Module creation as done by the CLI's add-module flow: a fresh
Assessment(name, max_points) with default passed=False, grade=None, and
the dataclass default status Planned. -/
def newModule (id : Option ℤ) (code title : String) (ects : ℤ)
    (aname : String) (mp : ℚ) : Module :=
  { id := id, code := code, title := title, ects := ects,
    assessment := { name := aname, max_points := mp, passed := false, grade := none },
    status := ModuleStatus.planned }

/-- Semester dataclass: term index and ordered module list. -/
structure Semester where
  semester : ℤ
  modules : List Module
deriving DecidableEq, Repr

/-- Goal hierarchy as a closed tagged variant: DurationGoal and GPAgoal. -/
inductive Goal where
  | duration (planned_semesters : ℤ) (description : String)
  | gpa (max_gpa : ℚ) (description : String)
deriving DecidableEq, Repr

/-- Goal.description accessor. -/
def Goal.description : Goal → String
  | Goal.duration _ d => d
  | Goal.gpa _ d => d

/-- ProgramSnapshot dataclass: per-status module lists, credit totals,
optional GPA, completed-semester count. -/
structure ProgramSnapshot where
  modules : List Module
  completed_modules : List Module
  enrolled_modules : List Module
  planned_modules : List Module
  recognized_modules : List Module
  ects_completed : ℤ
  ects_enrolled : ℤ
  total_ects : ℤ
  current_gpa : Option ℚ
  completed_semesters : ℕ
deriving DecidableEq, Repr

/-- DurationGoal.is_met and GPAgoal.is_met.
DurationGoal: completed_semesters <= planned_semesters.
GPAgoal: current_gpa is not None and current_gpa <= max_gpa. -/
def Goal.is_met (g : Goal) (context : ProgramSnapshot) : Bool :=
  match g with
  | Goal.duration ps _ => decide ((context.completed_semesters : ℤ) ≤ ps)
  | Goal.gpa mg _ =>
    match context.current_gpa with
    | none => false
    | some q => decide (q ≤ mg)

/-- DurationGoal.progress and GPAgoal.progress.
DurationGoal: 0 if completed_semesters or planned_semesters is 0, else
completed/planned clamped to the unit interval.
GPAgoal: 0 if GPA is None or 0, else max_gpa / GPA clamped to the unit
interval. -/
def Goal.progress (g : Goal) (context : ProgramSnapshot) : ℚ :=
  match g with
  | Goal.duration ps _ =>
    if context.completed_semesters = 0 ∨ ps = 0 then 0
    else max 0 (min 1 ((context.completed_semesters : ℚ) / (ps : ℚ)))
  | Goal.gpa mg _ =>
    match context.current_gpa with
    | none => 0
    | some q => if q = 0 then 0 else max 0 (min 1 (mg / q))

/-- StudyProgram dataclass: name, target total_ects, ordered semesters,
ordered goals. -/
structure StudyProgram where
  name : String
  total_ects : ℤ
  semesters : List Semester
  goals : List Goal
deriving DecidableEq, Repr

/-- StudyProgram.all_modules: flatten semesters in order, preserving
insertion order inside each semester. -/
def StudyProgram.all_modules (p : StudyProgram) : List Module :=
  (p.semesters.map (fun s => s.modules)).flatten

/-- Python round-to-integer with ties to even, on exact rationals. -/
def roundHalfEven (q : ℚ) : ℤ :=
  let f := Int.floor q
  let r := q - (f : ℚ)
  if r < 1 / 2 then f
  else if 1 / 2 < r then f + 1
  else if f % 2 = 0 then f else f + 1

/-- Python round(x, 2): round to 2 decimal places, ties to even. -/
def round2 (q : ℚ) : ℚ :=
  (roundHalfEven (q * 100) : ℚ) / 100

/-- StudyProgram._calculate_gpa: restrict to modules with a grade; None if
none remain; otherwise the credit-weighted average rounded to 2 decimals,
guarded to None when the ects sum is zero
(source: return round(weighted_sum / ects_sum, 2) if ects_sum else None). -/
def calculate_gpa (completed_modules : List Module) : Option ℚ :=
  let graded := completed_modules.filter (fun m => m.assessment.grade.isSome)
  if graded.isEmpty then none
  else
    let weighted_sum : ℚ :=
      (graded.map (fun m => m.assessment.grade.getD 0 * (m.ects : ℚ))).sum
    let ects_sum : ℤ := (graded.map (fun m => m.ects)).sum
    if ects_sum = 0 then none
    else some (round2 (weighted_sum / (ects_sum : ℚ)))

/-- StudyProgram.snapshot: partition by status, credit totals, GPA from
Completed modules only, and the completed-semester count (non-empty
semesters all of whose modules are Completed or Recognized). -/
def StudyProgram.snapshot (p : StudyProgram) : ProgramSnapshot :=
  let modules := p.all_modules
  let completed := modules.filter (fun m => decide (m.status = ModuleStatus.completed))
  let enrolled := modules.filter (fun m => decide (m.status = ModuleStatus.enrolled))
  let planned := modules.filter (fun m => decide (m.status = ModuleStatus.planned))
  let recognized := modules.filter (fun m => decide (m.status = ModuleStatus.recognized))
  { modules := modules
    completed_modules := completed
    enrolled_modules := enrolled
    planned_modules := planned
    recognized_modules := recognized
    ects_completed := ((completed ++ recognized).map (fun m => m.ects)).sum
    ects_enrolled := (enrolled.map (fun m => m.ects)).sum
    total_ects := p.total_ects
    current_gpa := calculate_gpa completed
    completed_semesters :=
      p.semesters.countP (fun s =>
        !s.modules.isEmpty &&
          s.modules.all (fun m =>
            decide (m.status = ModuleStatus.completed ∨ m.status = ModuleStatus.recognized))) }

/-! ## Persistence layer (JSON payloads, save, load, ID repair) -/

/-- JSON-like value tree: the payload structure built by
PersistenceService.save and consumed by load (json.dumps/loads and the
file system are out of scope, modelled as the identity on this tree). -/
inductive JValue where
  | null
  | bool (b : Bool)
  | num (q : ℚ)
  | str (s : String)
  | arr (xs : List JValue)
  | obj (fields : List (String × JValue))
deriving Repr

/-- Assoc-list lookup on object fields (first matching key). -/
def lookupKey : List (String × JValue) → String → Option JValue
  | [], _ => none
  | kv :: rest, k => if kv.fst = k then some kv.snd else lookupKey rest k

/-- Dict lookup, Python's payload.get(key); None on a non-object. -/
def JValue.lookup : JValue → String → Option JValue
  | JValue.obj fields, k => lookupKey fields k
  | _, _ => none

/-- Python payload[key] on a string value: KeyError when absent; the typed
embedding also rejects non-string values here. -/
def getStr (v : JValue) (k : String) : Except String String :=
  match v.lookup k with
  | some (JValue.str s) => Except.ok s
  | some _ => Except.error (k ++ ": erwartet String")
  | none => Except.error ("KeyError: " ++ k)

/-- Python payload[key] on an integer value: KeyError when absent; the
typed embedding also rejects non-integer values here. -/
def getInt (v : JValue) (k : String) : Except String ℤ :=
  match v.lookup k with
  | some (JValue.num q) =>
    if q.den = 1 then Except.ok q.num else Except.error (k ++ ": erwartet Ganzzahl")
  | some _ => Except.error (k ++ ": erwartet Ganzzahl")
  | none => Except.error ("KeyError: " ++ k)

/-- Python payload[key] on a numeric value: KeyError when absent; the
typed embedding also rejects non-numeric values here. -/
def getNum (v : JValue) (k : String) : Except String ℚ :=
  match v.lookup k with
  | some (JValue.num q) => Except.ok q
  | some _ => Except.error (k ++ ": erwartet Zahl")
  | none => Except.error ("KeyError: " ++ k)

/-- Python payload[key] on a list value: KeyError when absent; the typed
embedding also rejects non-list values here. -/
def getArr (v : JValue) (k : String) : Except String (List JValue) :=
  match v.lookup k with
  | some (JValue.arr xs) => Except.ok xs
  | some _ => Except.error (k ++ ": erwartet Liste")
  | none => Except.error ("KeyError: " ++ k)

/-- Python payload.get(key, default) on a string value; a present
non-string value falls back to the default in this typed embedding. -/
def getStrD (v : JValue) (k : String) (d : String) : String :=
  match v.lookup k with
  | some (JValue.str s) => s
  | _ => d

/-- assessment_data.get("passed", False); a present non-bool value falls
back to the default in this typed embedding. -/
def getBoolD (v : JValue) (k : String) : Bool :=
  match v.lookup k with
  | some (JValue.bool b) => b
  | _ => false

/-- assessment_data.get("grade"): absent and null both give None. -/
def getGrade (v : JValue) : Option ℚ :=
  match v.lookup "grade" with
  | some (JValue.num q) => some q
  | _ => none

/-- module_payload.get("id"): absent and null both give None (legacy files
without ids). -/
def getId (v : JValue) : Option ℤ :=
  match v.lookup "id" with
  | some (JValue.num q) => if q.den = 1 then some q.num else none
  | _ => none

/-- The wire string of each ModuleStatus value. -/
def statusValue : ModuleStatus → String
  | ModuleStatus.planned => "planned"
  | ModuleStatus.enrolled => "enrolled"
  | ModuleStatus.completed => "completed"
  | ModuleStatus.recognized => "recognized"

/-- ModuleStatus(value): the inverse of statusValue, None for any string
outside the four known states (Python raises ValueError there). -/
def statusOfString (s : String) : Option ModuleStatus :=
  if s = "planned" then some ModuleStatus.planned
  else if s = "enrolled" then some ModuleStatus.enrolled
  else if s = "completed" then some ModuleStatus.completed
  else if s = "recognized" then some ModuleStatus.recognized
  else none

/-- PersistenceService._serialize_goal: tag "duration" or "gpa" plus the
variant's fields. -/
def serialize_goal : Goal → JValue
  | Goal.duration ps d =>
    JValue.obj [("type", JValue.str "duration"), ("description", JValue.str d),
      ("planned_semesters", JValue.num (ps : ℚ))]
  | Goal.gpa mg d =>
    JValue.obj [("type", JValue.str "gpa"), ("description", JValue.str d),
      ("max_gpa", JValue.num mg)]

/-- asdict(module.assessment): field order name, max_points, passed, grade. -/
def serialize_assessment (a : Assessment) : JValue :=
  JValue.obj [("name", JValue.str a.name), ("max_points", JValue.num a.max_points),
    ("passed", JValue.bool a.passed),
    ("grade", match a.grade with | some q => JValue.num q | none => JValue.null)]

/-- Module entry written by save: id (or null), code, title, ects, status
tag, assessment. -/
def serialize_module (m : Module) : JValue :=
  JValue.obj [("id", match m.id with | some n => JValue.num (n : ℚ) | none => JValue.null),
    ("code", JValue.str m.code), ("title", JValue.str m.title),
    ("ects", JValue.num (m.ects : ℚ)), ("status", JValue.str (statusValue m.status)),
    ("assessment", serialize_assessment m.assessment)]

/-- Semester entry written by save: current field name "semester" plus the
module list. -/
def serialize_semester (s : Semester) : JValue :=
  JValue.obj [("semester", JValue.num (s.semester : ℚ)),
    ("modules", JValue.arr (s.modules.map serialize_module))]

/-- PersistenceService.save: the full payload (name, total_ects, goals,
semesters). -/
def save (p : StudyProgram) : JValue :=
  JValue.obj [("name", JValue.str p.name), ("total_ects", JValue.num (p.total_ects : ℚ)),
    ("goals", JValue.arr (p.goals.map serialize_goal)),
    ("semesters", JValue.arr (p.semesters.map serialize_semester))]

/-- Effectful map over a list in Except, stopping at the first error
(Python's sequential loop with exceptions). -/
def mapE (f : α → Except String β) : List α → Except String (List β)
  | [] => Except.ok []
  | x :: xs =>
    match f x with
    | Except.error e => Except.error e
    | Except.ok y =>
      match mapE f xs with
      | Except.error e => Except.error e
      | Except.ok ys => Except.ok (y :: ys)

/-- PersistenceService._deserialize_goal: dispatch on payload.get("type");
an unrecognized tag raises ValueError. -/
def deserialize_goal (v : JValue) : Except String Goal :=
  match v.lookup "type" with
  | some (JValue.str tag) =>
    if tag = "duration" then
      match getInt v "planned_semesters" with
      | Except.error e => Except.error e
      | Except.ok ps =>
        Except.ok (Goal.duration ps (getStrD v "description" "Studium in geplanter Zeit abschließen"))
    else if tag = "gpa" then
      match getNum v "max_gpa" with
      | Except.error e => Except.error e
      | Except.ok mg => Except.ok (Goal.gpa mg (getStrD v "description" "Notenschnitt halten"))
    else Except.error "ValueError: Unbekannter Zieltyp"
  | _ => Except.error "ValueError: Unbekannter Zieltyp"

/-- Module entry parsing inside PersistenceService.load: assessment fields
first, then the Module fields; ModuleStatus(...) rejects unknown values. -/
def parseModule (v : JValue) : Except String Module :=
  match v.lookup "assessment" with
  | none => Except.error "KeyError: assessment"
  | some ad =>
    match getStr ad "name" with
    | Except.error e => Except.error e
    | Except.ok aname =>
      match getNum ad "max_points" with
      | Except.error e => Except.error e
      | Except.ok mp =>
        match getStr v "code" with
        | Except.error e => Except.error e
        | Except.ok code =>
          match getStr v "title" with
          | Except.error e => Except.error e
          | Except.ok title =>
            match getInt v "ects" with
            | Except.error e => Except.error e
            | Except.ok ects =>
              match v.lookup "status" with
              | none => Except.error "KeyError: status"
              | some sv =>
                match sv with
                | JValue.str s =>
                  match statusOfString s with
                  | none => Except.error "ValueError: unbekannter Status"
                  | some st =>
                    Except.ok
                      { id := getId v, code := code, title := title, ects := ects,
                        assessment :=
                          { name := aname, max_points := mp,
                            passed := getBoolD ad "passed", grade := getGrade ad },
                        status := st }
                | _ => Except.error "ValueError: unbekannter Status"

/-- Semester entry parsing inside PersistenceService.load: term index from
"semester" with legacy fallback "number" (a present null value defeats the
fallback, exactly as Python's dict.get with a default does), then the
module list. -/
def parseSemester (v : JValue) : Except String Semester :=
  match (match v.lookup "semester" with
         | some x => some x
         | none => v.lookup "number") with
  | none => Except.error "KeyError: Semester-Eintrag benoetigt das Feld semester (oder legacy number)."
  | some JValue.null =>
    Except.error "KeyError: Semester-Eintrag benoetigt das Feld semester (oder legacy number)."
  | some (JValue.num q) =>
    if q.den = 1 then
      match getArr v "modules" with
      | Except.error e => Except.error e
      | Except.ok ms =>
        match mapE parseModule ms with
        | Except.error e => Except.error e
        | Except.ok mods => Except.ok { semester := q.num, modules := mods }
    else Except.error "semester: erwartet Ganzzahl"
  | some _ => Except.error "semester: erwartet Ganzzahl"

/-- payload.get("goals", []): absent gives the empty list. -/
def goalsField (v : JValue) : Except String (List JValue) :=
  match v.lookup "goals" with
  | none => Except.ok []
  | some (JValue.arr xs) => Except.ok xs
  | some _ => Except.error "goals: erwartet Liste"

/-- PersistenceService.load before the ID-repair pass: name, total_ects,
goals, semesters. -/
def loadRaw (v : JValue) : Except String StudyProgram :=
  match getStr v "name" with
  | Except.error e => Except.error e
  | Except.ok name =>
    match getInt v "total_ects" with
    | Except.error e => Except.error e
    | Except.ok te =>
      match goalsField v with
      | Except.error e => Except.error e
      | Except.ok gvals =>
        match mapE deserialize_goal gvals with
        | Except.error e => Except.error e
        | Except.ok goals =>
          match getArr v "semesters" with
          | Except.error e => Except.error e
          | Except.ok svals =>
            match mapE parseSemester svals with
            | Except.error e => Except.error e
            | Except.ok sems =>
              Except.ok { name := name, total_ects := te, semesters := sems, goals := goals }

/-- The ids explicitly present on a module list. -/
def presentIds (ms : List Module) : List ℤ :=
  ms.filterMap (fun m => m.id)

/-- Maximum of a list of ints, None on the empty list (Python max over the
set of present ids). -/
def listMaxInt : List ℤ → Option ℤ
  | [] => none
  | x :: xs =>
    match listMaxInt xs with
    | none => some x
    | some y => some (max x y)

/-- next_id of PersistenceService._ensure_module_ids:
max(present ids) + 1, or 1 when no id is present. -/
def nextIdFor (ms : List Module) : ℤ :=
  match listMaxInt (presentIds ms) with
  | none => 1
  | some mx => mx + 1

/-- The sequential assignment loop of _ensure_module_ids over a flat module
list: modules with an id are kept, modules without get next_id, next_id+1,
... in order; returns the final counter as well. -/
def assignIds : ℤ → List Module → List Module × ℤ
  | n, [] => ([], n)
  | n, m :: ms =>
    match m.id with
    | some _ =>
      let rest := assignIds n ms
      (m :: rest.1, rest.2)
    | none =>
      let rest := assignIds (n + 1) ms
      ({ m with id := some n } :: rest.1, rest.2)

/-- The same assignment walking the semester structure in order. -/
def assignIdsSem : ℤ → List Semester → List Semester × ℤ
  | n, [] => ([], n)
  | n, s :: ss =>
    let p := assignIds n s.modules
    let rest := assignIdsSem p.2 ss
    ({ s with modules := p.1 } :: rest.1, rest.2)

/-- PersistenceService._ensure_module_ids as a pure rewrite of the
program. -/
def ensure_module_ids (p : StudyProgram) : StudyProgram :=
  { p with semesters := (assignIdsSem (nextIdFor p.all_modules) p.semesters).1 }

/-- PersistenceService.load: parse, then run the ID-repair pass. -/
def load (v : JValue) : Except String StudyProgram :=
  match loadRaw v with
  | Except.error e => Except.error e
  | Except.ok p => Except.ok (ensure_module_ids p)

/-! ## Claim-side definitions -/

/-- Completed modules that carry a grade: the population of the GPA. -/
def gradedCompleted (P : StudyProgram) : List Module :=
  (P.all_modules.filter (fun m => decide (m.status = ModuleStatus.completed))).filter
    (fun m => m.assessment.grade.isSome)

/-- The data-model invariant on one module: Completed implies passed;
Recognized implies passed without a grade; no grade while not passed. -/
def Module.statusInvariant (m : Module) : Prop :=
  (m.status = ModuleStatus.completed → m.assessment.passed = true) ∧
  (m.status = ModuleStatus.recognized →
    m.assessment.passed = true ∧ m.assessment.grade = none) ∧
  (m.assessment.passed = false → m.assessment.grade = none)

instance (m : Module) : Decidable m.statusInvariant := by
  unfold Module.statusInvariant; infer_instance

/-- How many of the first i modules lack an id (position of a module among
the id-less ones in flattened order). -/
def absentBefore (ms : List Module) (i : ℕ) : ℕ :=
  ((ms.take i).filter (fun m => m.id.isNone)).length

/-! ## Small concrete fixtures -/

/-- A passed assessment with the given grade. -/
def gradedAssessment (g : ℚ) : Assessment :=
  { name := "Klausur", max_points := 100, passed := true, grade := some g }

/-- A completed module with a grade. -/
def completedModule (id : ℤ) (code : String) (ects : ℤ) (g : ℚ) : Module :=
  { id := some id, code := code, title := code, ects := ects,
    assessment := gradedAssessment g, status := ModuleStatus.completed }

/-- The spec scenario: 180 target credits, one Completed module with 10
ects grade 2.0 and one with 5 ects grade 3.0. -/
def scenarioProgram : StudyProgram :=
  { name := "BSc", total_ects := 180,
    semesters := [{ semester := 1,
                    modules := [completedModule 1 "A" 10 2, completedModule 2 "B" 5 3] }],
    goals := [] }

/-- A program whose only Completed module is graded but has 0 ects. -/
def zeroEctsProgram : StudyProgram :=
  { name := "Z", total_ects := 0,
    semesters := [{ semester := 1, modules := [completedModule 1 "A" 0 1] }],
    goals := [] }

/-- A program with two graded Completed modules whose ects (3 and -3) sum
to zero. -/
def cancellingEctsProgram : StudyProgram :=
  { name := "Z2", total_ects := 60,
    semesters := [{ semester := 1,
                    modules := [completedModule 1 "A" 3 2, completedModule 2 "B" (-3) 1] }],
    goals := [] }

/-- A program with no modules at all (its snapshot has no GPA). -/
def emptyProgram : StudyProgram :=
  { name := "E", total_ects := 180, semesters := [], goals := [] }

/-! ## Legacy-field transformation (claim-side, for the legacy-load law) -/

/-- Rewrite one semester entry to the legacy schema: every "semester" key
becomes "number"; non-object entries are left alone. -/
def renameEntry : JValue → JValue
  | JValue.obj fs =>
    JValue.obj (fs.map (fun kv => if kv.fst = "semester" then ("number", kv.snd) else kv))
  | other => other

/-- Apply renameEntry to every element of a list value. -/
def renameArr : JValue → JValue
  | JValue.arr xs => JValue.arr (xs.map renameEntry)
  | other => other

/-- Rewrite a whole file to the legacy semester schema: the value of every
"semesters" key has its entries renamed. -/
def renameSemesters : JValue → JValue
  | JValue.obj fs =>
    JValue.obj (fs.map (fun kv =>
      if kv.fst = "semesters" then (kv.fst, renameArr kv.snd) else kv))
  | other => other

/-- An entry is renamable when it does not already use the legacy key (a
non-object entry trivially qualifies). -/
def noNumberKey : JValue → Prop
  | JValue.obj fs => ∀ kv ∈ fs, kv.fst ≠ "number"
  | _ => True

/-- A file is renamable when every semester entry is. -/
def semEntriesRenamable (v : JValue) : Prop :=
  ∀ ss, v.lookup "semesters" = some (JValue.arr ss) → ∀ e ∈ ss, noNumberKey e

/-- Executable check for noNumberKey. -/
def noNumberKeyB : JValue → Bool
  | JValue.obj fs => fs.all (fun kv => decide (kv.fst ≠ "number"))
  | _ => true

/-- Executable check for semEntriesRenamable. -/
def semEntriesRenamableB (v : JValue) : Bool :=
  match v.lookup "semesters" with
  | some (JValue.arr ss) => ss.all noNumberKeyB
  | _ => true

/-! ## Concrete persistence fixtures -/

/-- A program exercising all statuses, both goal kinds and two semesters,
with every id present. -/
def roundTripProgram : StudyProgram :=
  { name := "BSc Informatik", total_ects := 180,
    semesters := [
      { semester := 1,
        modules := [completedModule 1 "A" 10 2,
          { id := some 2, code := "B", title := "Beta", ects := 5,
            assessment := { name := "K", max_points := 100, passed := false, grade := none },
            status := ModuleStatus.enrolled }] },
      { semester := 2,
        modules := [
          { id := some 3, code := "C", title := "Gamma", ects := 5,
            assessment := { name := "K", max_points := 50, passed := true, grade := none },
            status := ModuleStatus.recognized },
          { id := some 4, code := "D", title := "Delta", ects := 5,
            assessment := { name := "K", max_points := 50, passed := false, grade := none },
            status := ModuleStatus.planned }] } ],
    goals := [Goal.duration 6 "In Zeit", Goal.gpa 2 "Schnitt halten"] }

/-- A module entry as stored in a file, with a configurable id slot and
status tag. -/
def modEntry (id : Option ℤ) (code : String) (st : String) (passed : Bool) : JValue :=
  JValue.obj [("id", match id with | some n => JValue.num (n : ℚ) | none => JValue.null),
    ("code", JValue.str code), ("title", JValue.str code),
    ("ects", JValue.num 5), ("status", JValue.str st),
    ("assessment", JValue.obj [("name", JValue.str "K"),
      ("max_points", JValue.num 100), ("passed", JValue.bool passed),
      ("grade", JValue.null)])]

/-- The module produced by loading modEntry. -/
def modEntryLoaded (id : Option ℤ) (code : String) (st : ModuleStatus) (passed : Bool) : Module :=
  { id := id, code := code, title := code, ects := 5,
    assessment := { name := "K", max_points := 100, passed := passed, grade := none },
    status := st }

/-- A file whose modules carry ids 5, null, 7, absent (in flattened
order). -/
def idRepairFile : JValue :=
  JValue.obj [("name", JValue.str "P"), ("total_ects", JValue.num 180),
    ("goals", JValue.arr []),
    ("semesters", JValue.arr [
      JValue.obj [("semester", JValue.num 1),
        ("modules", JValue.arr [modEntry (some 5) "A" "planned" false,
                                modEntry none "B" "planned" false])],
      JValue.obj [("semester", JValue.num 2),
        ("modules", JValue.arr [modEntry (some 7) "C" "planned" false,
                                modEntry none "D" "planned" false])]])]

/-- What loading idRepairFile yields: the id-less modules receive 8 and 9. -/
def idRepairProgram : StudyProgram :=
  { name := "P", total_ects := 180,
    semesters := [
      { semester := 1,
        modules := [modEntryLoaded (some 5) "A" ModuleStatus.planned false,
                    modEntryLoaded (some 8) "B" ModuleStatus.planned false] },
      { semester := 2,
        modules := [modEntryLoaded (some 7) "C" ModuleStatus.planned false,
                    modEntryLoaded (some 9) "D" ModuleStatus.planned false] }],
    goals := [] }

/-- A file whose single module claims status "completed" while its
assessment has passed = false. -/
def invariantViolatingFile : JValue :=
  JValue.obj [("name", JValue.str "P"), ("total_ects", JValue.num 180),
    ("goals", JValue.arr []),
    ("semesters", JValue.arr [
      JValue.obj [("semester", JValue.num 1),
        ("modules", JValue.arr [modEntry (some 1) "A" "completed" false])]])]

/-- What loading invariantViolatingFile yields. -/
def invariantViolatingProgram : StudyProgram :=
  { name := "P", total_ects := 180,
    semesters := [
      { semester := 1,
        modules := [modEntryLoaded (some 1) "A" ModuleStatus.completed false] }],
    goals := [] }

/-- A current-schema file (semester entries keyed "semester"). -/
def currentSchemaFile : JValue :=
  JValue.obj [("name", JValue.str "P"), ("total_ects", JValue.num 180),
    ("goals", JValue.arr []),
    ("semesters", JValue.arr [
      JValue.obj [("semester", JValue.num 1),
        ("modules", JValue.arr [modEntry (some 1) "A" "planned" false])]])]

/-- A file with a semester entry that has neither "semester" nor
"number". -/
def missingSemesterFile : JValue :=
  JValue.obj [("name", JValue.str "P"), ("total_ects", JValue.num 180),
    ("goals", JValue.arr []),
    ("semesters", JValue.arr [
      JValue.obj [("modules", JValue.arr [modEntry (some 1) "A" "planned" false])]])]

/-- A file whose goal list contains an unrecognized tag. -/
def badGoalTagFile : JValue :=
  JValue.obj [("name", JValue.str "P"), ("total_ects", JValue.num 180),
    ("goals", JValue.arr [JValue.obj [("type", JValue.str "bonus"),
      ("description", JValue.str "x")]]),
    ("semesters", JValue.arr [])]

/-- A file whose single module carries a status value outside the four
known states. -/
def badStatusFile : JValue :=
  JValue.obj [("name", JValue.str "P"), ("total_ects", JValue.num 180),
    ("goals", JValue.arr []),
    ("semesters", JValue.arr [
      JValue.obj [("semester", JValue.num 1),
        ("modules", JValue.arr [modEntry (some 1) "A" "failed" false])]])]

/-! ## Helper lemmas -/

lemma mem_of_mem_gradedCompleted {P : StudyProgram} {m : Module}
    (h : m ∈ gradedCompleted P) : m ∈ P.all_modules :=
  List.mem_of_mem_filter (List.mem_of_mem_filter h)

/-- calculate_gpa on a module list with positive credits: None exactly on
an ungraded list, otherwise the rounded credit-weighted mean. -/
lemma calculate_gpa_spec (ms : List Module)
    (hpos : ∀ m ∈ ms.filter (fun m => m.assessment.grade.isSome), 0 < m.ects) :
    (calculate_gpa ms = none ↔ ms.filter (fun m => m.assessment.grade.isSome) = []) ∧
    (ms.filter (fun m => m.assessment.grade.isSome) ≠ [] →
      calculate_gpa ms =
        some (round2
          (((ms.filter (fun m => m.assessment.grade.isSome)).map
              (fun m => m.assessment.grade.getD 0 * (m.ects : ℚ))).sum /
            ((((ms.filter (fun m => m.assessment.grade.isSome)).map
                (fun m => m.ects)).sum : ℤ) : ℚ)))) := by
  by_cases hE : ms.filter (fun m => m.assessment.grade.isSome) = []
  · constructor
    · simp [calculate_gpa, hE]
    · intro h; exact absurd hE h
  · have hsum : 0 < (((ms.filter (fun m => m.assessment.grade.isSome)).map
        (fun m => m.ects)).sum) := by
      apply List.sum_pos
      · intro x hx
        obtain ⟨m, hm, rfl⟩ := List.mem_map.mp hx
        exact hpos m hm
      · simp [hE]
    constructor
    · simp [calculate_gpa, hE, hsum.ne']
    · intro _
      simp [calculate_gpa, hE, hsum.ne']

/-- C1 counterexample program evaluates against the literal biconditional. -/
lemma zeroEcts_gpa_eval : zeroEctsProgram.snapshot.current_gpa = none := by decide

lemma mem_all_modules {P : StudyProgram} {m : Module} :
    m ∈ P.all_modules ↔ ∃ s ∈ P.semesters, m ∈ s.modules := by
  simp [StudyProgram.all_modules, List.mem_flatten]

/-- Goal serialization round-trips. -/
lemma roundtrip_goal (g : Goal) : deserialize_goal (serialize_goal g) = Except.ok g := by
  cases g <;> rfl

/-- Module serialization round-trips (including an absent id). -/
lemma roundtrip_module (m : Module) : parseModule (serialize_module m) = Except.ok m := by
  rcases m with ⟨id, code, title, ects, ⟨an, mp, ps, gr⟩, st⟩
  cases id <;> cases gr <;> cases st <;> rfl

/-- mapE over a serialized list recovers the original list. -/
lemma mapE_map_ok {α β : Type} (g : α → β) (f : β → Except String α) (xs : List α)
    (h : ∀ x ∈ xs, f (g x) = Except.ok x) : mapE f (xs.map g) = Except.ok xs := by
  induction xs with
  | nil => rfl
  | cons x rest ih =>
    have hx := h x (by simp)
    have hr := ih (fun y hy => h y (by simp [hy]))
    simp [mapE, hx, hr]

/-- Semester serialization round-trips. -/
lemma roundtrip_semester (s : Semester) : parseSemester (serialize_semester s) = Except.ok s := by
  rcases s with ⟨n, mods⟩
  have h : mapE parseModule (mods.map serialize_module) = Except.ok mods :=
    mapE_map_ok serialize_module parseModule mods (fun m _ => roundtrip_module m)
  show (match mapE parseModule (mods.map serialize_module) with
        | Except.error e => (Except.error e : Except String Semester)
        | Except.ok ms => Except.ok (Semester.mk n ms)) =
      Except.ok (Semester.mk n mods)
  rw [h]

/-- The full parse of a saved program recovers the program. -/
lemma loadRaw_save (P : StudyProgram) : loadRaw (save P) = Except.ok P := by
  rcases P with ⟨name, te, sems, goals⟩
  have hg : mapE deserialize_goal (goals.map serialize_goal) = Except.ok goals :=
    mapE_map_ok serialize_goal deserialize_goal goals (fun g _ => roundtrip_goal g)
  have hs : mapE parseSemester (sems.map serialize_semester) = Except.ok sems :=
    mapE_map_ok serialize_semester parseSemester sems (fun s _ => roundtrip_semester s)
  show (match mapE deserialize_goal (goals.map serialize_goal) with
        | Except.error e => (Except.error e : Except String StudyProgram)
        | Except.ok gls =>
          match mapE parseSemester (sems.map serialize_semester) with
          | Except.error e => (Except.error e : Except String StudyProgram)
          | Except.ok sms => Except.ok (StudyProgram.mk name te sms gls)) =
      Except.ok (StudyProgram.mk name te sems goals)
  rw [hg, hs]

/-- The repair loop leaves a list without absent ids untouched. -/
lemma assignIds_eq_self {ms : List Module} (h : ∀ m ∈ ms, m.id ≠ none) (n : ℤ) :
    assignIds n ms = (ms, n) := by
  induction ms generalizing n with
  | nil => rfl
  | cons m rest ih =>
    cases hid : m.id with
    | none => exact absurd hid (h m (by simp))
    | some k => simp [assignIds, hid, ih (fun x hx => h x (by simp [hx]))]

/-- The repair pass leaves a program without absent ids untouched. -/
lemma assignIdsSem_eq_self {ss : List Semester}
    (h : ∀ s ∈ ss, ∀ m ∈ s.modules, m.id ≠ none) (n : ℤ) :
    assignIdsSem n ss = (ss, n) := by
  induction ss generalizing n with
  | nil => rfl
  | cons s rest ih =>
    have h1 : assignIds n s.modules = (s.modules, n) :=
      assignIds_eq_self (h s (by simp)) n
    simp [assignIdsSem, h1, ih (fun x hx => h x (by simp [hx]))]

lemma ensure_module_ids_eq_self {P : StudyProgram}
    (h : ∀ m ∈ P.all_modules, m.id ≠ none) : ensure_module_ids P = P := by
  have hss : ∀ s ∈ P.semesters, ∀ m ∈ s.modules, m.id ≠ none := by
    intro s hs m hm
    exact h m (mem_all_modules.mpr ⟨s, hs, hm⟩)
  simp [ensure_module_ids, assignIdsSem_eq_self hss]

/-- Save-then-load round-trip (shared between claims). -/
lemma load_save_eq (P : StudyProgram) :
    load (save P) = Except.ok (ensure_module_ids P) := by
  simp [load, loadRaw_save P]

/-- Members of the repaired module list keep their status and assessment. -/
lemma assignIds_mem_shape {n : ℤ} {ms : List Module} {m2 : Module}
    (h : m2 ∈ (assignIds n ms).1) :
    ∃ m ∈ ms, m2.status = m.status ∧ m2.assessment = m.assessment := by
  induction ms generalizing n with
  | nil => cases h
  | cons m rest ih =>
    cases hid : m.id with
    | some k =>
      simp only [assignIds, hid] at h
      rcases List.mem_cons.mp h with rfl | h2
      · exact ⟨m2, by simp, rfl, rfl⟩
      · obtain ⟨m3, hm3, e1, e2⟩ := ih h2
        exact ⟨m3, by simp [hm3], e1, e2⟩
    | none =>
      simp only [assignIds, hid] at h
      rcases List.mem_cons.mp h with rfl | h2
      · exact ⟨m, by simp, rfl, rfl⟩
      · obtain ⟨m3, hm3, e1, e2⟩ := ih h2
        exact ⟨m3, by simp [hm3], e1, e2⟩

/-- Members of the repaired program keep their status and assessment. -/
lemma assignIdsSem_mem_shape {n : ℤ} {ss : List Semester} {s2 : Semester} {m2 : Module}
    (hs : s2 ∈ (assignIdsSem n ss).1) (hm : m2 ∈ s2.modules) :
    ∃ s ∈ ss, ∃ m ∈ s.modules, m2.status = m.status ∧ m2.assessment = m.assessment := by
  induction ss generalizing n with
  | nil => cases hs
  | cons s rest ih =>
    simp only [assignIdsSem] at hs
    rcases List.mem_cons.mp hs with rfl | hs2
    · obtain ⟨m, hmem, e1, e2⟩ := assignIds_mem_shape (show m2 ∈ (assignIds n s.modules).1 from hm)
      exact ⟨s, by simp, m, hmem, e1, e2⟩
    · obtain ⟨s3, hs3, m, hmem, e1, e2⟩ := ih hs2
      exact ⟨s3, by simp [hs3], m, hmem, e1, e2⟩

lemma assignIds_fst_length (n : ℤ) (ms : List Module) :
    (assignIds n ms).1.length = ms.length := by
  induction ms generalizing n with
  | nil => rfl
  | cons m rest ih =>
    cases hid : m.id <;> simp [assignIds, hid, ih]

/-- Every id is present after the repair loop. -/
lemma assignIds_isSome {n : ℤ} {ms : List Module} {m2 : Module}
    (h : m2 ∈ (assignIds n ms).1) : m2.id.isSome = true := by
  induction ms generalizing n with
  | nil => cases h
  | cons m rest ih =>
    cases hid : m.id with
    | some k =>
      simp only [assignIds, hid] at h
      rcases List.mem_cons.mp h with rfl | h2
      · simp [hid]
      · exact ih h2
    | none =>
      simp only [assignIds, hid] at h
      rcases List.mem_cons.mp h with rfl | h2
      · simp
      · exact ih h2

lemma assignIds_append (n : ℤ) (xs ys : List Module) :
    assignIds n (xs ++ ys) =
      ((assignIds n xs).1 ++ (assignIds (assignIds n xs).2 ys).1,
        (assignIds (assignIds n xs).2 ys).2) := by
  induction xs generalizing n with
  | nil => rfl
  | cons m rest ih =>
    cases hid : m.id <;> simp [assignIds, hid, ih]

/-- The per-semester repair walk agrees with the repair of the flattened
module list. -/
lemma assignIdsSem_flatten (n : ℤ) (ss : List Semester) :
    ((assignIdsSem n ss).1.map (fun s => s.modules)).flatten =
        (assignIds n ((ss.map (fun s => s.modules)).flatten)).1 ∧
      (assignIdsSem n ss).2 = (assignIds n ((ss.map (fun s => s.modules)).flatten)).2 := by
  induction ss generalizing n with
  | nil => exact ⟨rfl, rfl⟩
  | cons s rest ih =>
    have happ := assignIds_append n s.modules ((rest.map (fun s => s.modules)).flatten)
    constructor
    · show (assignIds n s.modules).1 ++
          ((assignIdsSem (assignIds n s.modules).2 rest).1.map (fun s => s.modules)).flatten = _
      rw [(ih (assignIds n s.modules).2).1]
      simp [happ]
    · show (assignIdsSem (assignIds n s.modules).2 rest).2 = _
      rw [(ih (assignIds n s.modules).2).2]
      simp [happ]

/-- all_modules after the repair pass is the repaired flat list. -/
lemma ensure_all_modules (Q : StudyProgram) :
    (ensure_module_ids Q).all_modules =
      (assignIds (nextIdFor Q.all_modules) Q.all_modules).1 :=
  (assignIdsSem_flatten (nextIdFor Q.all_modules) Q.semesters).1

lemma absentBefore_succ (m : Module) (ms : List Module) (j : ℕ) :
    absentBefore (m :: ms) (j + 1) =
      (if m.id.isNone then 1 else 0) + absentBefore ms j := by
  unfold absentBefore
  rw [List.take_succ_cons, List.filter_cons]
  cases hmi : m.id.isNone <;> simp [Nat.add_comm]

/-- Positional characterization of the repair loop: present ids are kept,
the j-th id-less module (j = number of id-less modules before it) receives
n + j. -/
lemma assignIds_getElem (ms : List Module) (n : ℤ) (i : ℕ) :
    ((assignIds n ms).1[i]?).map Module.id =
      (ms[i]?).map (fun m =>
        match m.id with
        | some k => some k
        | none => some (n + (absentBefore ms i : ℤ))) := by
  induction ms generalizing n i with
  | nil => rfl
  | cons m rest ih =>
    cases i with
    | zero =>
      cases hid : m.id with
      | some k => simp [assignIds, hid, absentBefore]
      | none => simp [assignIds, hid, absentBefore]
    | succ j =>
      cases hid : m.id with
      | some k =>
        have hstep : (assignIds n (m :: rest)).1 = m :: (assignIds n rest).1 := by
          simp [assignIds, hid]
        rw [hstep]
        simp only [List.getElem?_cons_succ, absentBefore_succ, hid, Option.isNone_some,
          Bool.false_eq_true, if_false, Nat.zero_add]
        exact ih n j
      | none =>
        have hstep : (assignIds n (m :: rest)).1 =
            { m with id := some n } :: (assignIds (n + 1) rest).1 := by
          simp [assignIds, hid]
        rw [hstep]
        simp only [List.getElem?_cons_succ, absentBefore_succ, hid, Option.isNone_none, if_true]
        rw [ih (n + 1) j]
        cases hrj : rest[j]? with
        | none => rfl
        | some m2 =>
          cases hid2 : m2.id with
          | some k2 => simp [hid2]
          | none =>
            simp [hid2]
            ring

/-- C3: after a successful load every module has an id; present ids are
kept, and the id-less modules receive sequential ids in flattened
(semester then insertion) order, starting at max(present ids) + 1, or at 1
when no id was present (nextIdFor covers both cases). -/
theorem load_repairs_ids (v : JValue) (P : StudyProgram)
    (hload : load v = Except.ok P) :
    ∃ Q, loadRaw v = Except.ok Q ∧
      (∀ m ∈ P.all_modules, m.id.isSome = true) ∧
      (∀ i : ℕ, (P.all_modules[i]?).map Module.id =
        (Q.all_modules[i]?).map (fun m =>
          match m.id with
          | some k => some k
          | none => some (nextIdFor Q.all_modules + (absentBefore Q.all_modules i : ℤ)))) := by
  unfold load at hload
  cases hraw : loadRaw v with
  | error e => rw [hraw] at hload; cases hload
  | ok Q =>
    rw [hraw] at hload
    have hPQ : ensure_module_ids Q = P := Except.ok.inj hload
    subst hPQ
    refine ⟨Q, rfl, ?_, ?_⟩
    · intro m hm
      rw [ensure_all_modules] at hm
      exact assignIds_isSome hm
    · intro i
      rw [ensure_all_modules]
      exact assignIds_getElem Q.all_modules (nextIdFor Q.all_modules) i

/-- C3 witness: a file with present ids 5 and 7 and two id-less modules;
the repair assigns 8 and 9 in flattened order. -/
theorem load_repairs_ids_witness :
    load idRepairFile = Except.ok idRepairProgram ∧
    idRepairProgram.all_modules.map Module.id = [some 5, some 8, some 7, some 9] ∧
    ∃ Q, loadRaw idRepairFile = Except.ok Q ∧
      (∀ m ∈ idRepairProgram.all_modules, m.id.isSome = true) ∧
      (∀ i : ℕ, (idRepairProgram.all_modules[i]?).map Module.id =
        (Q.all_modules[i]?).map (fun m =>
          match m.id with
          | some k => some k
          | none => some (nextIdFor Q.all_modules + (absentBefore Q.all_modules i : ℤ)))) :=
  ⟨rfl, by decide, load_repairs_ids idRepairFile idRepairProgram rfl⟩

/-- C2: for a StudyProgram all of whose modules carry an id (goals are by
construction DurationGoal or GPAgoal), load(save(P)) reproduces P
exactly — name, total_ects, goals in order with their fields, semesters
and modules in order with all their fields. -/
theorem save_load_roundtrip (P : StudyProgram)
    (h : ∀ m ∈ P.all_modules, m.id ≠ none) :
    load (save P) = Except.ok P := by
  rw [load_save_eq P, ensure_module_ids_eq_self h]

/-- C2 witness: a concrete two-semester program with both goal kinds and
all four statuses, every id present. -/
theorem save_load_roundtrip_witness :
    (∀ m ∈ roundTripProgram.all_modules, m.id ≠ none) ∧
    load (save roundTripProgram) = Except.ok roundTripProgram :=
  ⟨by decide, save_load_roundtrip roundTripProgram (by decide)⟩

/-- C6 (amended: load restricted to files written by save): module
creation establishes the data-model invariants, the four lifecycle
transitions preserve them (complete, recognize and reset establish them
outright), and loading a file produced by save preserves them; an
arbitrary hand-written file can, however, violate them (see the
counterexample). -/
theorem lifecycle_invariants :
    (∀ (id : Option ℤ) (code title : String) (ects : ℤ) (aname : String) (mp : ℚ),
      (newModule id code title ects aname mp).statusInvariant) ∧
    (∀ m : Module, m.statusInvariant → m.enroll.statusInvariant) ∧
    (∀ (m : Module) (g : ℚ), (m.complete g).statusInvariant) ∧
    (∀ m : Module, m.recognize.statusInvariant) ∧
    (∀ m : Module, m.reset.statusInvariant) ∧
    (∀ P P2 : StudyProgram, (∀ m ∈ P.all_modules, m.statusInvariant) →
      load (save P) = Except.ok P2 → ∀ m2 ∈ P2.all_modules, m2.statusInvariant) := by
  refine ⟨?_, ?_, ?_, ?_, ?_, ?_⟩
  · intro id code title ects aname mp
    simp [newModule, Module.statusInvariant]
  · intro m hm
    exact ⟨by simp [Module.enroll], by simp [Module.enroll], fun hp => hm.2.2 hp⟩
  · intro m g
    simp [Module.complete, Module.statusInvariant, Assessment.record_result]
  · intro m
    simp [Module.recognize, Module.statusInvariant, Assessment.record_result]
  · intro m
    simp [Module.reset, Module.statusInvariant, Assessment.record_result]
  · intro P P2 hinv hload
    rw [load_save_eq] at hload
    obtain rfl : P2 = ensure_module_ids P := (Except.ok.inj hload).symm
    intro m2 hm2
    obtain ⟨s2, hs2, hmem⟩ := mem_all_modules.mp hm2
    obtain ⟨s, hs, m, hm, e1, e2⟩ := assignIdsSem_mem_shape hs2 hmem
    have hmi : m.statusInvariant := hinv m (mem_all_modules.mpr ⟨s, hs, hm⟩)
    unfold Module.statusInvariant
    rw [e1, e2]
    exact hmi

/-- C6 counterexample: a file claiming status "completed" with
passed = false loads successfully, so a state reachable through
PersistenceService.load violates the invariant. -/
theorem load_reachable_invariant_violation :
    load invariantViolatingFile = Except.ok invariantViolatingProgram ∧
    ∃ m ∈ invariantViolatingProgram.all_modules, ¬ m.statusInvariant := by
  exact ⟨rfl, by decide⟩

/-- C6 witness: the transition clauses and the save/load clause applied at
a concrete module and program. -/
theorem lifecycle_invariants_witness :
    (completedModule 1 "A" 10 2).statusInvariant ∧
    ((completedModule 1 "A" 10 2).enroll).statusInvariant ∧
    (∀ m ∈ roundTripProgram.all_modules, m.statusInvariant) ∧
    (∀ m2 ∈ (ensure_module_ids roundTripProgram).all_modules, m2.statusInvariant) := by
  refine ⟨by decide, ?_, by decide, ?_⟩
  · exact lifecycle_invariants.2.1 (completedModule 1 "A" 10 2) (by decide)
  · exact lifecycle_invariants.2.2.2.2.2 roundTripProgram (ensure_module_ids roundTripProgram)
      (by decide) (load_save_eq roundTripProgram)

/-- C1 (amended with the positive-ects precondition of the data model):
for every StudyProgram all of whose modules have positive ects,
snapshot().current_gpa is None iff no Completed module has a non-null
grade, and otherwise equals the credit-weighted average
sum(grade_i * ects_i) / sum(ects_i) over the graded Completed modules
(Recognized modules excluded by construction), rounded to 2 decimals. -/
theorem gpa_credit_weighted_average (P : StudyProgram)
    (hpos : ∀ m ∈ P.all_modules, 0 < m.ects) :
    (P.snapshot.current_gpa = none ↔ gradedCompleted P = []) ∧
    (gradedCompleted P ≠ [] →
      P.snapshot.current_gpa =
        some (round2
          (((gradedCompleted P).map
              (fun m => m.assessment.grade.getD 0 * (m.ects : ℚ))).sum /
            ((((gradedCompleted P).map (fun m => m.ects)).sum : ℤ) : ℚ)))) := by
  have h := calculate_gpa_spec
    (P.all_modules.filter (fun m => decide (m.status = ModuleStatus.completed)))
    (fun m hm => hpos m (mem_of_mem_gradedCompleted hm))
  exact h

/-- C1 counterexample: on a program whose single Completed module is
graded but carries 0 ects, the GPA is None even though a graded Completed
module exists, so the unrestricted biconditional of the claim is false. -/
theorem gpa_biconditional_fails_at_zero_ects :
    ¬ (zeroEctsProgram.snapshot.current_gpa = none ↔
        gradedCompleted zeroEctsProgram = []) := by
  decide

/-- C1 witness: the spec scenario (10 ects at grade 2.0, 5 ects at grade
3.0) satisfies the precondition and gets GPA 2.33. -/
theorem gpa_credit_weighted_average_witness :
    (∀ m ∈ scenarioProgram.all_modules, 0 < m.ects) ∧
    scenarioProgram.snapshot.current_gpa = some (233 / 100) := by
  refine ⟨by decide, ?_⟩
  have h := (gpa_credit_weighted_average scenarioProgram (by decide)).2 (by decide)
  have e1 : gradedCompleted scenarioProgram =
      [completedModule 1 "A" 10 2, completedModule 2 "B" 5 3] := rfl
  rw [h, e1]
  norm_num [completedModule, gradedAssessment, round2, roundHalfEven]

/-- C5: recognize() always yields status Recognized with a passed,
grade-free assessment, also right after a graded complete(). -/
theorem recognize_clears_grade (m : Module) :
    m.recognize.status = ModuleStatus.recognized ∧
    m.recognize.assessment.passed = true ∧
    m.recognize.assessment.grade = none ∧
    ∀ g : ℚ, ((m.complete g).recognize).assessment.grade = none := by
  simp [Module.recognize, Module.complete, Assessment.record_result]

/-- C9: GPAgoal.is_met holds exactly when the GPA is defined and at most
max_gpa; GPAgoal.progress is 0 for an undefined or zero GPA and otherwise
max_gpa / GPA clamped to the unit interval; in particular max_gpa = 2.5
with an undefined GPA gives is_met false and progress 0. -/
theorem gpagoal_eval (mg : ℚ) (d : String) (s : ProgramSnapshot) :
    ((Goal.gpa mg d).is_met s = true ↔ ∃ q, s.current_gpa = some q ∧ q ≤ mg) ∧
    ((s.current_gpa = none ∨ s.current_gpa = some 0) → (Goal.gpa mg d).progress s = 0) ∧
    (∀ q, s.current_gpa = some q → q ≠ 0 →
      (Goal.gpa mg d).progress s = max 0 (min 1 (mg / q))) ∧
    (s.current_gpa = none →
      (Goal.gpa (5 / 2) d).is_met s = false ∧ (Goal.gpa (5 / 2) d).progress s = 0) := by
  cases hc : s.current_gpa with
  | none => simp [Goal.is_met, Goal.progress, hc]
  | some q =>
    refine ⟨?_, ?_, ?_, ?_⟩
    · simp [Goal.is_met, hc]
    · intro h
      rcases h with h | h
      · cases h
      · have hq0 : q = 0 := Option.some.inj h
        simp [Goal.progress, hc, hq0]
    · intro q2 hq2 hne
      have hqq : q = q2 := Option.some.inj hq2
      subst hqq
      simp [Goal.progress, hc, hne]
    · intro h; cases h

/-- C9 witness: a concrete snapshot without a GPA at max_gpa = 2.5. -/
theorem gpagoal_eval_witness :
    emptyProgram.snapshot.current_gpa = none ∧
    (Goal.gpa (5 / 2) "Notenschnitt halten").is_met emptyProgram.snapshot = false ∧
    (Goal.gpa (5 / 2) "Notenschnitt halten").progress emptyProgram.snapshot = 0 :=
  ⟨by decide,
    (gpagoal_eval (5 / 2) "Notenschnitt halten" emptyProgram.snapshot).2.2.2 (by decide)⟩

/-- C4: snapshot().completed_semesters counts exactly the semesters that
have at least one module and whose modules are all Completed or
Recognized; an empty semester is never counted. -/
theorem completed_semesters_counts (P : StudyProgram) :
    P.snapshot.completed_semesters =
      P.semesters.countP (fun s =>
        decide (0 < s.modules.length ∧ ∀ m ∈ s.modules,
          m.status = ModuleStatus.completed ∨ m.status = ModuleStatus.recognized)) := by
  show P.semesters.countP (fun s =>
      !s.modules.isEmpty &&
        s.modules.all (fun m =>
          decide (m.status = ModuleStatus.completed ∨ m.status = ModuleStatus.recognized))) = _
  apply List.countP_congr
  intro s _
  rcases s with ⟨n, mods⟩
  cases mods with
  | nil => simp
  | cons a l => simp [List.all_eq_true]

/-- C10: when at least one Completed module is graded but the graded
modules' ects sum to 0, the guard in _calculate_gpa yields None instead of
dividing by zero. -/
theorem gpa_zero_ects_guard (P : StudyProgram)
    (h1 : gradedCompleted P ≠ [])
    (h2 : ((gradedCompleted P).map (fun m => m.ects)).sum = 0) :
    P.snapshot.current_gpa = none := by
  have hne : ¬ ((gradedCompleted P).isEmpty = true) := by
    simpa [List.isEmpty_iff] using h1
  show (if (gradedCompleted P).isEmpty then (none : Option ℚ)
        else if ((gradedCompleted P).map (fun m => m.ects)).sum = 0 then none
        else some (round2
          (((gradedCompleted P).map
              (fun m => m.assessment.grade.getD 0 * (m.ects : ℚ))).sum /
            ((((gradedCompleted P).map (fun m => m.ects)).sum : ℤ) : ℚ)))) = none
  rw [if_neg hne, if_pos h2]

/-- C10 witness: two graded Completed modules with ects 3 and -3. -/
theorem gpa_zero_ects_guard_witness :
    gradedCompleted cancellingEctsProgram ≠ [] ∧
    ((gradedCompleted cancellingEctsProgram).map (fun m => m.ects)).sum = 0 ∧
    cancellingEctsProgram.snapshot.current_gpa = none :=
  ⟨by decide, by decide, gpa_zero_ects_guard cancellingEctsProgram (by decide) (by decide)⟩

/-! ## Inversion lemmas for load (error-propagation reasoning) -/

/-- A successful mapE run means every element parsed successfully. -/
lemma mapE_ok_forall {α β : Type} {f : α → Except String β} {xs : List α} {ys : List β}
    (h : mapE f xs = Except.ok ys) : ∀ x ∈ xs, ∃ y, f x = Except.ok y := by
  induction xs generalizing ys with
  | nil => intro x hx; cases hx
  | cons x rest ih =>
    unfold mapE at h
    cases hfx : f x with
    | error e => rw [hfx] at h; cases h
    | ok y =>
      rw [hfx] at h
      cases hrest : mapE f rest with
      | error e => rw [hrest] at h; cases h
      | ok ys2 =>
        intro x2 hx2
        rcases List.mem_cons.mp hx2 with rfl | h2
        · exact ⟨y, hfx⟩
        · exact ih hrest x2 h2

/-- A successful load means the raw parse succeeded. -/
lemma load_ok_inv {v : JValue} {P : StudyProgram} (h : load v = Except.ok P) :
    ∃ Q, loadRaw v = Except.ok Q := by
  unfold load at h
  cases hraw : loadRaw v with
  | error e => rw [hraw] at h; cases h
  | ok Q => exact ⟨Q, rfl⟩

/-- A successful raw parse determines goal-list and semester-list
sub-parses. -/
lemma loadRaw_ok_inv {v : JValue} {P : StudyProgram} (h : loadRaw v = Except.ok P) :
    ∃ gs sems, goalsField v = Except.ok gs ∧
      mapE deserialize_goal gs = Except.ok P.goals ∧
      getArr v "semesters" = Except.ok sems ∧
      mapE parseSemester sems = Except.ok P.semesters := by
  unfold loadRaw at h
  cases h1 : getStr v "name" with
  | error e => simp only [h1] at h; cases h
  | ok name =>
    simp only [h1] at h
    cases h2 : getInt v "total_ects" with
    | error e => simp only [h2] at h; cases h
    | ok te =>
      simp only [h2] at h
      cases h3 : goalsField v with
      | error e => simp only [h3] at h; cases h
      | ok gs =>
        simp only [h3] at h
        cases h4 : mapE deserialize_goal gs with
        | error e => simp only [h4] at h; cases h
        | ok goals =>
          simp only [h4] at h
          cases h5 : getArr v "semesters" with
          | error e => simp only [h5] at h; cases h
          | ok sems =>
            simp only [h5] at h
            cases h6 : mapE parseSemester sems with
            | error e => simp only [h6] at h; cases h
            | ok sms =>
              simp only [h6, Except.ok.injEq] at h
              subst h
              exact ⟨gs, sems, rfl, h4, rfl, h6⟩

/-- A semester entry with neither term-index field fails to parse. -/
lemma parseSemester_missing {e : JValue}
    (h1 : e.lookup "semester" = none) (h2 : e.lookup "number" = none) :
    ∀ s, parseSemester e ≠ Except.ok s := by
  intro s hs
  unfold parseSemester at hs
  rw [h1, h2] at hs
  cases hs

/-- A successful semester parse determines the module sub-parse. -/
lemma parseSemester_ok_inv {e : JValue} {s : Semester}
    (h : parseSemester e = Except.ok s) :
    ∃ ms, getArr e "modules" = Except.ok ms ∧
      mapE parseModule ms = Except.ok s.modules := by
  unfold parseSemester at h
  cases hsv : (match e.lookup "semester" with
               | some x => some x
               | none => e.lookup "number") with
  | none => simp only [hsv] at h; cases h
  | some x =>
    simp only [hsv] at h
    cases x with
    | null => cases h
    | num q =>
      have h2 : (if q.den = 1 then
          (match getArr e "modules" with
           | Except.error er => (Except.error er : Except String Semester)
           | Except.ok ms =>
             match mapE parseModule ms with
             | Except.error er => Except.error er
             | Except.ok mods => Except.ok (Semester.mk q.num mods))
          else Except.error "semester: erwartet Ganzzahl") = Except.ok s := h
      by_cases hden : q.den = 1
      · rw [if_pos hden] at h2
        cases h5 : getArr e "modules" with
        | error er => simp only [h5] at h2; cases h2
        | ok ms =>
          simp only [h5] at h2
          cases h6 : mapE parseModule ms with
          | error er => simp only [h6] at h2; cases h2
          | ok mods =>
            simp only [h6, Except.ok.injEq] at h2
            subst h2
            exact ⟨ms, rfl, h6⟩
      · rw [if_neg hden] at h2; cases h2
    | bool b => cases h
    | str s2 => cases h
    | arr xs => cases h
    | obj fs => cases h

/-- A goal entry whose tag is not "duration" or "gpa" fails to parse. -/
lemma deserialize_goal_badtag {g : JValue}
    (htag : ∀ s, g.lookup "type" = some (JValue.str s) → s ≠ "duration" ∧ s ≠ "gpa") :
    ∀ gl, deserialize_goal g ≠ Except.ok gl := by
  intro gl hg
  unfold deserialize_goal at hg
  cases hl : g.lookup "type" with
  | none => simp only [hl] at hg; cases hg
  | some x =>
    simp only [hl] at hg
    cases x with
    | str s =>
      have hg2 : (if s = "duration" then
          (match getInt g "planned_semesters" with
           | Except.error e => (Except.error e : Except String Goal)
           | Except.ok ps =>
             Except.ok (Goal.duration ps
               (getStrD g "description" "Studium in geplanter Zeit abschließen")))
          else if s = "gpa" then
            (match getNum g "max_gpa" with
             | Except.error e => (Except.error e : Except String Goal)
             | Except.ok mg => Except.ok (Goal.gpa mg (getStrD g "description" "Notenschnitt halten")))
          else Except.error "ValueError: Unbekannter Zieltyp") = Except.ok gl := hg
      rw [if_neg ((htag s hl).1), if_neg ((htag s hl).2)] at hg2
      cases hg2
    | null => cases hg
    | bool b => cases hg
    | num q => cases hg
    | arr xs => cases hg
    | obj fs => cases hg

/-- A successful module parse means the stored status value is one of the
four known state strings. -/
lemma parseModule_ok_status {me : JValue} {m : Module}
    (h : parseModule me = Except.ok m) :
    ∃ s st, me.lookup "status" = some (JValue.str s) ∧ statusOfString s = some st := by
  unfold parseModule at h
  cases h0 : me.lookup "assessment" with
  | none => simp only [h0] at h; cases h
  | some ad =>
    simp only [h0] at h
    cases h1 : getStr ad "name" with
    | error e => simp only [h1] at h; cases h
    | ok an =>
      simp only [h1] at h
      cases h2 : getNum ad "max_points" with
      | error e => simp only [h2] at h; cases h
      | ok mp =>
        simp only [h2] at h
        cases h3 : getStr me "code" with
        | error e => simp only [h3] at h; cases h
        | ok code =>
          simp only [h3] at h
          cases h4 : getStr me "title" with
          | error e => simp only [h4] at h; cases h
          | ok title =>
            simp only [h4] at h
            cases h5 : getInt me "ects" with
            | error e => simp only [h5] at h; cases h
            | ok ects =>
              simp only [h5] at h
              cases h6 : me.lookup "status" with
              | none => simp only [h6] at h; cases h
              | some sv =>
                simp only [h6] at h
                cases sv with
                | str s =>
                  cases h7 : statusOfString s with
                  | none => simp only [h7] at h; cases h
                  | some st => exact ⟨s, st, rfl, h7⟩
                | null => cases h
                | bool b => cases h
                | num q => cases h
                | arr xs => cases h
                | obj fs => cases h

/-- Loading a file with a semester entry lacking both term-index fields
cannot produce a program. -/
lemma load_missing_semester_field {v : JValue} {ss : List JValue} {e : JValue}
    (hv : v.lookup "semesters" = some (JValue.arr ss)) (he : e ∈ ss)
    (h1 : e.lookup "semester" = none) (h2 : e.lookup "number" = none) :
    ∀ P, load v ≠ Except.ok P := by
  intro P hP
  obtain ⟨Q, hQ⟩ := load_ok_inv hP
  obtain ⟨gs, sems, hgf, hgm, hsf, hsm⟩ := loadRaw_ok_inv hQ
  have hss : getArr v "semesters" = Except.ok ss := by
    unfold getArr; rw [hv]
  rw [hss] at hsf
  have hsems : ss = sems := Except.ok.inj hsf
  subst hsems
  obtain ⟨s, hps⟩ := mapE_ok_forall hsm e he
  exact parseSemester_missing h1 h2 s hps

/-- Loading a file with an unrecognized goal tag cannot produce a
program. -/
lemma load_bad_goal_tag {v : JValue} {gs : List JValue} {g : JValue}
    (hv : v.lookup "goals" = some (JValue.arr gs)) (hg : g ∈ gs)
    (htag : ∀ s, g.lookup "type" = some (JValue.str s) → s ≠ "duration" ∧ s ≠ "gpa") :
    ∀ P, load v ≠ Except.ok P := by
  intro P hP
  obtain ⟨Q, hQ⟩ := load_ok_inv hP
  obtain ⟨gs2, sems, hgf, hgm, hsf, hsm⟩ := loadRaw_ok_inv hQ
  have hgg : goalsField v = Except.ok gs := by
    unfold goalsField; rw [hv]
  rw [hgg] at hgf
  have hgs : gs = gs2 := Except.ok.inj hgf
  subst hgs
  obtain ⟨gl, hpg⟩ := mapE_ok_forall hgm g hg
  exact deserialize_goal_badtag htag gl hpg

/-- Loading a file with a module status outside the four known states
cannot produce a program. -/
lemma load_bad_status {v : JValue} {ss : List JValue} {e : JValue}
    {ms : List JValue} {me : JValue} {sv : JValue}
    (hv : v.lookup "semesters" = some (JValue.arr ss)) (he : e ∈ ss)
    (hm : e.lookup "modules" = some (JValue.arr ms)) (hme : me ∈ ms)
    (hst : me.lookup "status" = some sv)
    (hbad : ∀ s, sv = JValue.str s → statusOfString s = none) :
    ∀ P, load v ≠ Except.ok P := by
  intro P hP
  obtain ⟨Q, hQ⟩ := load_ok_inv hP
  obtain ⟨gs, sems, hgf, hgm, hsf, hsm⟩ := loadRaw_ok_inv hQ
  have hss : getArr v "semesters" = Except.ok ss := by
    unfold getArr; rw [hv]
  rw [hss] at hsf
  have hsems : ss = sems := Except.ok.inj hsf
  subst hsems
  obtain ⟨s, hps⟩ := mapE_ok_forall hsm e he
  obtain ⟨ms2, hms2, hmods⟩ := parseSemester_ok_inv hps
  have hmm : getArr e "modules" = Except.ok ms := by
    unfold getArr; rw [hm]
  rw [hmm] at hms2
  have : ms = ms2 := Except.ok.inj hms2
  subst this
  obtain ⟨m, hpm⟩ := mapE_ok_forall hmods me hme
  obtain ⟨s2, st, hlk, hos⟩ := parseModule_ok_status hpm
  rw [hst] at hlk
  have hsv : sv = JValue.str s2 := Option.some.inj hlk
  rw [hbad s2 hsv] at hos
  cases hos

/-- C8: load fails fast, producing no StudyProgram at all, when the input
contains a semester entry with no term-index field, a goal object with an
unrecognized tag, or a module status value outside the four known states;
no default is substituted. -/
theorem structural_load_errors :
    (∀ (v : JValue) (ss : List JValue) (e : JValue),
      v.lookup "semesters" = some (JValue.arr ss) → e ∈ ss →
      e.lookup "semester" = none → e.lookup "number" = none →
      ∀ P, load v ≠ Except.ok P) ∧
    (∀ (v : JValue) (gs : List JValue) (g : JValue),
      v.lookup "goals" = some (JValue.arr gs) → g ∈ gs →
      (∀ s, g.lookup "type" = some (JValue.str s) → s ≠ "duration" ∧ s ≠ "gpa") →
      ∀ P, load v ≠ Except.ok P) ∧
    (∀ (v : JValue) (ss : List JValue) (e : JValue) (ms : List JValue) (me sv : JValue),
      v.lookup "semesters" = some (JValue.arr ss) → e ∈ ss →
      e.lookup "modules" = some (JValue.arr ms) → me ∈ ms →
      me.lookup "status" = some sv →
      (∀ s, sv = JValue.str s → statusOfString s = none) →
      ∀ P, load v ≠ Except.ok P) :=
  ⟨fun _ _ _ hv he h1 h2 => load_missing_semester_field hv he h1 h2,
   fun _ _ _ hv hg htag => load_bad_goal_tag hv hg htag,
   fun _ _ _ _ _ _ hv he hm hme hst hbad => load_bad_status hv he hm hme hst hbad⟩

/-- C8 witness: three concrete malformed files (missing term-index field,
goal tag "bonus", module status "failed") all fail to load. -/
theorem structural_load_errors_witness :
    (∀ P, load missingSemesterFile ≠ Except.ok P) ∧
    (∀ P, load badGoalTagFile ≠ Except.ok P) ∧
    (∀ P, load badStatusFile ≠ Except.ok P) := by
  refine ⟨?_, ?_, ?_⟩
  · exact structural_load_errors.1 missingSemesterFile
      [JValue.obj [("modules", JValue.arr [modEntry (some 1) "A" "planned" false])]]
      (JValue.obj [("modules", JValue.arr [modEntry (some 1) "A" "planned" false])])
      rfl (List.mem_singleton.mpr rfl) rfl rfl
  · refine structural_load_errors.2.1 badGoalTagFile
      [JValue.obj [("type", JValue.str "bonus"), ("description", JValue.str "x")]]
      (JValue.obj [("type", JValue.str "bonus"), ("description", JValue.str "x")])
      rfl (List.mem_singleton.mpr rfl) ?_
    intro s h
    have h2 : JValue.str "bonus" = JValue.str s := Option.some.inj h
    injection h2 with h3
    subst h3
    exact ⟨by decide, by decide⟩
  · refine structural_load_errors.2.2 badStatusFile
      [JValue.obj [("semester", JValue.num 1),
        ("modules", JValue.arr [modEntry (some 1) "A" "failed" false])]]
      (JValue.obj [("semester", JValue.num 1),
        ("modules", JValue.arr [modEntry (some 1) "A" "failed" false])])
      [modEntry (some 1) "A" "failed" false]
      (modEntry (some 1) "A" "failed" false)
      (JValue.str "failed")
      rfl (List.mem_singleton.mpr rfl) rfl (List.mem_singleton.mpr rfl) rfl ?_
    intro s h
    injection h with h3
    subst h3
    decide

/-! ## Legacy-schema (rename) lemmas -/

lemma lookupKey_rename_semester (fs : List (String × JValue)) :
    lookupKey (fs.map (fun kv =>
      if kv.fst = "semester" then ("number", kv.snd) else kv)) "semester" = none := by
  induction fs with
  | nil => rfl
  | cons kv rest ih =>
    by_cases hk : kv.fst = "semester"
    · simp [lookupKey, hk, ih]
    · simp [lookupKey, hk, ih]

lemma lookupKey_rename_number (fs : List (String × JValue))
    (hnn : ∀ kv ∈ fs, kv.fst ≠ "number") :
    lookupKey (fs.map (fun kv =>
      if kv.fst = "semester" then ("number", kv.snd) else kv)) "number" =
      lookupKey fs "semester" := by
  induction fs with
  | nil => rfl
  | cons kv rest ih =>
    by_cases hk : kv.fst = "semester"
    · simp [lookupKey, hk]
    · have hn : kv.fst ≠ "number" := hnn kv (by simp)
      simp [lookupKey, hk, hn, ih (fun x hx => hnn x (by simp [hx]))]

lemma lookupKey_rename_other (fs : List (String × JValue)) (k : String)
    (h1 : k ≠ "semester") (h2 : k ≠ "number") :
    lookupKey (fs.map (fun kv =>
      if kv.fst = "semester" then ("number", kv.snd) else kv)) k = lookupKey fs k := by
  induction fs with
  | nil => rfl
  | cons kv rest ih =>
    by_cases hk : kv.fst = "semester"
    · simp [lookupKey, hk, Ne.symm h1, Ne.symm h2, ih]
    · simp [lookupKey, hk, ih]

lemma noNumber_lookup_none {fs : List (String × JValue)}
    (hnn : ∀ kv ∈ fs, kv.fst ≠ "number") : lookupKey fs "number" = none := by
  induction fs with
  | nil => rfl
  | cons kv rest ih =>
    have hn : kv.fst ≠ "number" := hnn kv (by simp)
    simp [lookupKey, hn, ih (fun x hx => hnn x (by simp [hx]))]

lemma lookupKey_renameSem_other (fs : List (String × JValue)) (k : String)
    (h : k ≠ "semesters") :
    lookupKey (fs.map (fun kv =>
      if kv.fst = "semesters" then (kv.fst, renameArr kv.snd) else kv)) k =
      lookupKey fs k := by
  induction fs with
  | nil => rfl
  | cons kv rest ih =>
    by_cases hk : kv.fst = "semesters"
    · simp [lookupKey, hk, Ne.symm h, ih]
    · simp [lookupKey, hk, ih]

lemma lookupKey_renameSem_sems (fs : List (String × JValue)) :
    lookupKey (fs.map (fun kv =>
      if kv.fst = "semesters" then (kv.fst, renameArr kv.snd) else kv)) "semesters" =
      (lookupKey fs "semesters").map renameArr := by
  induction fs with
  | nil => rfl
  | cons kv rest ih =>
    by_cases hk : kv.fst = "semesters"
    · simp [lookupKey, hk]
    · simp [lookupKey, hk, ih]

/-- Renaming the term-index key of one renamable entry does not change its
parse. -/
lemma parseSemester_rename (e : JValue) (hnn : noNumberKey e) :
    parseSemester (renameEntry e) = parseSemester e := by
  cases e with
  | obj fs =>
    have hnn2 : ∀ kv ∈ fs, kv.fst ≠ "number" := hnn
    have hL1 : JValue.lookup (renameEntry (JValue.obj fs)) "semester" = none :=
      lookupKey_rename_semester fs
    have hL2 : JValue.lookup (renameEntry (JValue.obj fs)) "number" =
        lookupKey fs "semester" :=
      lookupKey_rename_number fs hnn2
    have hR2 : JValue.lookup (JValue.obj fs) "number" = none :=
      noNumber_lookup_none hnn2
    have hsemL : (match JValue.lookup (renameEntry (JValue.obj fs)) "semester" with
                  | some x => some x
                  | none => JValue.lookup (renameEntry (JValue.obj fs)) "number") =
        lookupKey fs "semester" := by
      rw [hL1, hL2]
    have hsemR : (match JValue.lookup (JValue.obj fs) "semester" with
                  | some x => some x
                  | none => JValue.lookup (JValue.obj fs) "number") =
        lookupKey fs "semester" := by
      rw [hR2]
      show (match lookupKey fs "semester" with
            | some x => some x
            | none => (none : Option JValue)) = _
      cases lookupKey fs "semester" <;> rfl
    have e3 : getArr (renameEntry (JValue.obj fs)) "modules" =
        getArr (JValue.obj fs) "modules" := by
      have hmod : JValue.lookup (renameEntry (JValue.obj fs)) "modules" =
          JValue.lookup (JValue.obj fs) "modules" :=
        lookupKey_rename_other fs "modules" (by decide) (by decide)
      unfold getArr
      rw [hmod]
    unfold parseSemester
    rw [hsemL, hsemR, e3]
  | null => rfl
  | bool b => rfl
  | num q => rfl
  | str s => rfl
  | arr xs => rfl

/-- mapE is stable under an element transformation the parser cannot
see. -/
lemma mapE_map_congr {α β : Type} (f : α → Except String β) (g : α → α) (xs : List α)
    (h : ∀ x ∈ xs, f (g x) = f x) : mapE f (xs.map g) = mapE f xs := by
  induction xs with
  | nil => rfl
  | cons x rest ih =>
    show (match f (g x) with
          | Except.error e => (Except.error e : Except String (List β))
          | Except.ok y =>
            match mapE f (rest.map g) with
            | Except.error e => Except.error e
            | Except.ok ys => Except.ok (y :: ys)) = _
    rw [h x (by simp), ih (fun y hy => h y (by simp [hy]))]
    rfl

lemma noNumberKey_of_B {e : JValue} (h : noNumberKeyB e = true) : noNumberKey e := by
  cases e with
  | obj fs =>
    intro kv hkv
    have := (List.all_eq_true.mp h) kv hkv
    exact of_decide_eq_true this
  | null => trivial
  | bool b => trivial
  | num q => trivial
  | str s => trivial
  | arr xs => trivial

lemma semEntriesRenamable_of_B {v : JValue} (h : semEntriesRenamableB v = true) :
    semEntriesRenamable v := by
  intro ss hv e he
  unfold semEntriesRenamableB at h
  rw [hv] at h
  exact noNumberKey_of_B ((List.all_eq_true.mp h) e he)

/-- C7: a file using the legacy "number" term-index field loads exactly
like one using the current "semester" field (legacy fallback), and a
semester entry offering neither field makes the whole load fail with a
structural error. -/
theorem legacy_term_index_field :
    (∀ v : JValue, semEntriesRenamable v → load (renameSemesters v) = load v) ∧
    (∀ (v : JValue) (ss : List JValue) (e : JValue),
      v.lookup "semesters" = some (JValue.arr ss) → e ∈ ss →
      e.lookup "semester" = none → e.lookup "number" = none →
      ∀ P, load v ≠ Except.ok P) := by
  constructor
  · intro v hren
    suffices h : loadRaw (renameSemesters v) = loadRaw v by
      unfold load; rw [h]
    cases v with
    | obj fs =>
      have hname : getStr (renameSemesters (JValue.obj fs)) "name" =
          getStr (JValue.obj fs) "name" := by
        unfold getStr
        rw [show JValue.lookup (renameSemesters (JValue.obj fs)) "name" =
            JValue.lookup (JValue.obj fs) "name" from
          lookupKey_renameSem_other fs "name" (by decide)]
      have hte : getInt (renameSemesters (JValue.obj fs)) "total_ects" =
          getInt (JValue.obj fs) "total_ects" := by
        unfold getInt
        rw [show JValue.lookup (renameSemesters (JValue.obj fs)) "total_ects" =
            JValue.lookup (JValue.obj fs) "total_ects" from
          lookupKey_renameSem_other fs "total_ects" (by decide)]
      have hgo : goalsField (renameSemesters (JValue.obj fs)) =
          goalsField (JValue.obj fs) := by
        unfold goalsField
        rw [show JValue.lookup (renameSemesters (JValue.obj fs)) "goals" =
            JValue.lookup (JValue.obj fs) "goals" from
          lookupKey_renameSem_other fs "goals" (by decide)]
      have hsems : JValue.lookup (renameSemesters (JValue.obj fs)) "semesters" =
          (lookupKey fs "semesters").map renameArr :=
        lookupKey_renameSem_sems fs
      unfold loadRaw
      rw [hname, hte, hgo]
      cases hsem : lookupKey fs "semesters" with
      | none =>
        have hA : getArr (renameSemesters (JValue.obj fs)) "semesters" =
            Except.error ("KeyError: " ++ "semesters") := by
          unfold getArr
          rw [hsems, hsem]
          rfl
        have hB : getArr (JValue.obj fs) "semesters" =
            Except.error ("KeyError: " ++ "semesters") := by
          unfold getArr
          rw [show JValue.lookup (JValue.obj fs) "semesters" =
              lookupKey fs "semesters" from rfl, hsem]
        rw [hA, hB]
      | some x =>
        cases x with
        | arr ss =>
          have hA : getArr (renameSemesters (JValue.obj fs)) "semesters" =
              Except.ok (ss.map renameEntry) := by
            unfold getArr
            rw [hsems, hsem]
            rfl
          have hB : getArr (JValue.obj fs) "semesters" = Except.ok ss := by
            unfold getArr
            rw [show JValue.lookup (JValue.obj fs) "semesters" =
                lookupKey fs "semesters" from rfl, hsem]
          simp only [hA, hB]
          rw [mapE_map_congr parseSemester renameEntry ss
            (fun e he => parseSemester_rename e (hren ss hsem e he))]
        | null =>
          have hA : getArr (renameSemesters (JValue.obj fs)) "semesters" =
              Except.error ("semesters" ++ ": erwartet Liste") := by
            unfold getArr
            rw [hsems, hsem]
            rfl
          have hB : getArr (JValue.obj fs) "semesters" =
              Except.error ("semesters" ++ ": erwartet Liste") := by
            unfold getArr
            rw [show JValue.lookup (JValue.obj fs) "semesters" =
                lookupKey fs "semesters" from rfl, hsem]
          rw [hA, hB]
        | bool b =>
          have hA : getArr (renameSemesters (JValue.obj fs)) "semesters" =
              Except.error ("semesters" ++ ": erwartet Liste") := by
            unfold getArr
            rw [hsems, hsem]
            rfl
          have hB : getArr (JValue.obj fs) "semesters" =
              Except.error ("semesters" ++ ": erwartet Liste") := by
            unfold getArr
            rw [show JValue.lookup (JValue.obj fs) "semesters" =
                lookupKey fs "semesters" from rfl, hsem]
          rw [hA, hB]
        | num q =>
          have hA : getArr (renameSemesters (JValue.obj fs)) "semesters" =
              Except.error ("semesters" ++ ": erwartet Liste") := by
            unfold getArr
            rw [hsems, hsem]
            rfl
          have hB : getArr (JValue.obj fs) "semesters" =
              Except.error ("semesters" ++ ": erwartet Liste") := by
            unfold getArr
            rw [show JValue.lookup (JValue.obj fs) "semesters" =
                lookupKey fs "semesters" from rfl, hsem]
          rw [hA, hB]
        | str s =>
          have hA : getArr (renameSemesters (JValue.obj fs)) "semesters" =
              Except.error ("semesters" ++ ": erwartet Liste") := by
            unfold getArr
            rw [hsems, hsem]
            rfl
          have hB : getArr (JValue.obj fs) "semesters" =
              Except.error ("semesters" ++ ": erwartet Liste") := by
            unfold getArr
            rw [show JValue.lookup (JValue.obj fs) "semesters" =
                lookupKey fs "semesters" from rfl, hsem]
          rw [hA, hB]
        | obj fs2 =>
          have hA : getArr (renameSemesters (JValue.obj fs)) "semesters" =
              Except.error ("semesters" ++ ": erwartet Liste") := by
            unfold getArr
            rw [hsems, hsem]
            rfl
          have hB : getArr (JValue.obj fs) "semesters" =
              Except.error ("semesters" ++ ": erwartet Liste") := by
            unfold getArr
            rw [show JValue.lookup (JValue.obj fs) "semesters" =
                lookupKey fs "semesters" from rfl, hsem]
          rw [hA, hB]
    | null => rfl
    | bool b => rfl
    | num q => rfl
    | str s => rfl
    | arr xs => rfl
  · intro v ss e hv he h1 h2
    exact load_missing_semester_field hv he h1 h2

/-- C7 witness: a concrete current-schema file loads identically after
rewriting its semester entry to the legacy key, and a concrete file
without either key fails. -/
theorem legacy_term_index_field_witness :
    semEntriesRenamableB currentSchemaFile = true ∧
    load (renameSemesters currentSchemaFile) = load currentSchemaFile ∧
    (∀ P, load missingSemesterFile ≠ Except.ok P) := by
  refine ⟨by decide,
    legacy_term_index_field.1 currentSchemaFile (semEntriesRenamable_of_B (by decide)),
    legacy_term_index_field.2 missingSemesterFile
      [JValue.obj [("modules", JValue.arr [modEntry (some 1) "A" "planned" false])]]
      (JValue.obj [("modules", JValue.arr [modEntry (some 1) "A" "planned" false])])
      rfl (List.mem_singleton.mpr rfl) rfl rfl⟩

end Dashboard
